import Mathlib

/-!
Verification of the transaction dashboard backend (src/app.js).

The backend stores transaction records in a document database and serves
six GET endpoints. The embedding below models each request handler as a
pure function of the stored record list (the store is read-only for every
endpoint except initialize). MongoDB aggregation behaviour that the
handlers rely on (query matching, `$bucket`, `$group`, skip/limit,
countDocuments) is modelled explicitly where used, with doc comments
citing the relevant lines.

Numbers: prices are modelled as rationals (JS numbers holding decimal
prices); months, counts and page arithmetic as naturals. `parseFloat` of
the search text is JavaScript library behaviour, so its outcome is passed
in as data (`none` standing for `NaN`).
-/

/-- Calendar date stored in `dateOfSale` (schema type `Date`). MongoDB
evaluates `{$month: "$dateOfSale"}` to the month component (1 to 12),
ignoring the year and day. -/
structure DateOfSale where
  year : Int
  month : Nat
  day : Nat
deriving DecidableEq

/-- A stored record, per `transactionSchema` (src/app.js lines 14-23). -/
structure Transaction where
  id : Nat
  title : String
  price : ℚ
  description : String
  category : String
  image : String
  sold : Bool
  dateOfSale : DateOfSale
deriving DecidableEq

/-- Unanchored match: does `sub` occur as a contiguous run inside `hay`? -/
def containsSub (hay sub : List Char) : Bool :=
  sub.isPrefixOf hay ||
    match hay with
    | [] => false
    | _ :: t => containsSub t sub

/-- Case-insensitive substring test, modelling
`{$regex: pattern, $options: "i"}` on a literal pattern (no regex
metacharacters), which MongoDB evaluates as an unanchored
case-insensitive match (src/app.js lines 53-54). -/
def ciContains (s pattern : String) : Bool :=
  containsSub (s.data.map Char.toLower) (pattern.data.map Char.toLower)

/-- The `search` query parameter together with the value of
`parseFloat(search)`: `some v` when the text parses to the number `v`,
`none` when it is non-numeric (JavaScript `NaN`). -/
structure SearchParam where
  text : String
  num : Option ℚ
deriving DecidableEq

/-- `parseFloat(search) || 0` (src/app.js line 55): `NaN` is falsy, so a
failed parse falls back to `0`; a parse result of `0` is also falsy and
falls back to the same `0`. -/
def parseFloatOr0 (p : Option ℚ) : ℚ := p.getD 0

/-- The field a regex condition applies to. -/
inductive Fld where
  | title
  | description
deriving DecidableEq

/-- String value of a field on a record. -/
def fieldVal (f : Fld) (r : Transaction) : String :=
  match f with
  | .title => r.title
  | .description => r.description

/-- One condition of the MongoDB query document built at src/app.js
lines 46-57. -/
inductive Cond where
  | monthEq (m : Nat)
  | regexI (f : Fld) (pattern : String)
  | priceEq (v : ℚ)
  | or3 (a b c : Cond)

/-- Evaluate a single condition on a record: `monthEq` is
`{$expr: {$eq: [{$month: "$dateOfSale"}, m]}}`; `regexI` the
case-insensitive regex; `priceEq` numeric equality on `price`; `or3` the
three-element `$or`. -/
def evalCond : Cond → Transaction → Bool
  | .monthEq m, r => decide (r.dateOfSale.month = m)
  | .regexI f pat, r => ciContains (fieldVal f r) pat
  | .priceEq v, r => decide (r.price = v)
  | .or3 a b c, r => evalCond a r || evalCond b r || evalCond c r

/-- A query document is the conjunction of its top-level conditions. -/
def evalQuery (q : List Cond) (r : Transaction) : Bool :=
  q.all (fun c => evalCond c r)

/-- Query construction (src/app.js lines 46-57): start empty; when
`month` is provided add the month equality; when `search` is provided add
the `$or` of the two case-insensitive regexes on title and description
and the price equality against `parseFloat(search) || 0`. -/
def buildQuery (month : Option Nat) (search : Option SearchParam) : List Cond :=
  (match month with
   | none => []
   | some m => [Cond.monthEq m]) ++
  (match search with
   | none => []
   | some s => [Cond.or3 (Cond.regexI .title s.text) (Cond.regexI .description s.text)
                  (Cond.priceEq (parseFloatOr0 s.num))])

/-- Response shape of `GET /api/transactions` (src/app.js lines 66-72). -/
structure ListingResponse where
  transactions : List Transaction
  total : Nat
  page : Nat
  perPage : Nat
  totalPages : Nat
deriving DecidableEq

/-- `GET /api/transactions` (src/app.js lines 43-76). The matches are
taken in storage order, then `skip((page - 1) * perPage)` and
`limit(perPage)` slice out one page; `total` is a second, unsliced
`countDocuments` of the same query; `totalPages` is
`Math.ceil(total / perPage)`, written here with the exact natural-number
ceiling-division formula. Callers pass `page = 1`, `perPage = 10` when
the query string omits them (the declared defaults at line 44). -/
def transactionsHandler (month : Option Nat) (search : Option SearchParam)
    (page perPage : Nat) (rs : List Transaction) : ListingResponse :=
  let matched := rs.filter (fun r => evalQuery (buildQuery month search) r)
  { transactions := (matched.drop ((page - 1) * perPage)).take perPage,
    total := matched.length,
    page := page,
    perPage := perPage,
    totalPages := (matched.length + perPage - 1) / perPage }

/-- Response shape of `GET /api/statistics` (src/app.js lines 90-95). -/
structure Statistics where
  totalSaleAmount : ℚ
  totalSoldItems : Nat
  totalNotSoldItems : Nat
deriving DecidableEq

/-- The `$match` + `$group` aggregation of src/app.js lines 83-97: over
the month matches, `totalSaleAmount` sums `$cond [sold = true, price, 0]`,
`totalSoldItems` sums `$cond [sold = true, 1, 0]`, `totalNotSoldItems`
sums `$cond [sold = false, 1, 0]`. A `$group` over an empty input
produces no document at all, hence the `Option`. -/
def statisticsAggregate (month : Nat) (rs : List Transaction) : Option Statistics :=
  let matched := rs.filter (fun r => decide (r.dateOfSale.month = month))
  if matched.isEmpty then none
  else some
    { totalSaleAmount := (matched.map (fun r => if r.sold = true then r.price else 0)).sum,
      totalSoldItems := (matched.map (fun r => if r.sold = true then 1 else 0)).sum,
      totalNotSoldItems := (matched.map (fun r => if r.sold = false then 1 else 0)).sum }

/-- `GET /api/statistics` (src/app.js lines 79-103):
`stats[0] || {totalSaleAmount: 0, totalSoldItems: 0, totalNotSoldItems: 0}`
falls back to the all-zero object when the aggregation returned nothing. -/
def statisticsHandler (month : Nat) (rs : List Transaction) : Statistics :=
  (statisticsAggregate month rs).getD
    { totalSaleAmount := 0, totalSoldItems := 0, totalNotSoldItems := 0 }

/-- Bucket assignment of the `$bucket` stage (src/app.js lines 117-124):
boundaries `[0, 101, 201, 301, 401, 501, 601, 701, 801, 901]` give nine
half-open buckets `[lo, hi)`, indices 0 to 8; every other price
(including everything at or above 901) falls into the default bucket,
index 9 here (MongoDB labels it with the string `"901-above"`). -/
def bucketIdx (p : ℚ) : Nat :=
  if 0 ≤ p ∧ p < 101 then 0
  else if 101 ≤ p ∧ p < 201 then 1
  else if 201 ≤ p ∧ p < 301 then 2
  else if 301 ≤ p ∧ p < 401 then 3
  else if 401 ≤ p ∧ p < 501 then 4
  else if 501 ≤ p ∧ p < 601 then 5
  else if 601 ≤ p ∧ p < 701 then 6
  else if 701 ≤ p ∧ p < 801 then 7
  else if 801 ≤ p ∧ p < 901 then 8
  else 9

/-- Per-bucket counts of the month matches, listed in `_id` order: the
nine numeric lower bounds ascending, then the default bucket (its string
`_id` sorts after all numbers in BSON order). -/
def bucketCounts (month : Nat) (rs : List Transaction) : List Nat :=
  let matched := rs.filter (fun r => decide (r.dateOfSale.month = month))
  (List.range 10).map (fun i => (matched.filter (fun r => decide (bucketIdx r.price = i))).length)

/-- The `$bucket` aggregation output (src/app.js lines 110-126): one
`{_id, count}` document per NON-EMPTY bucket — MongoDB omits buckets that
received no input document — in `_id` order. Only the counts matter
downstream, because lines 141-145 read the array positionally. -/
def barChartData (month : Nat) (rs : List Transaction) : List Nat :=
  (bucketCounts month rs).filter (fun c => decide (c ≠ 0))

/-- The ten fixed labels of src/app.js lines 128-139. -/
def barLabels : List String :=
  ["0 - 100", "101 - 200", "201 - 300", "301 - 400", "401 - 500",
   "501 - 600", "601 - 700", "701 - 800", "801 - 900", "901 - above"]

/-- `GET /api/bar-chart` (src/app.js lines 106-151): ten labelled rows
start at count 0, then
`barChartData.forEach((item, index) => result[index].count = item.count)`
overwrites row `index` with the `index`-th aggregation document — whatever
bucket that document came from. Row `i` therefore carries the `i`-th
NON-EMPTY bucket count, or 0 when fewer than `i + 1` buckets were
non-empty. (`index < result.length` always holds: at most ten documents
come back.) -/
def barChartHandler (month : Nat) (rs : List Transaction) : List (String × Nat) :=
  let data := barChartData month rs
  barLabels.enum.map (fun p => (p.2, data.getD p.1 0))

/-- `GET /api/pie-chart` (src/app.js lines 154-176): `$group` by
`$category` with `count: {$sum: 1}` — one `{_id, count}` pair per
distinct category value among the month matches, counting its records. -/
def pieChartHandler (month : Nat) (rs : List Transaction) : List (String × Nat) :=
  let matched := rs.filter (fun r => decide (r.dateOfSale.month = month))
  (matched.map (fun r => r.category)).dedup.map
    (fun c => (c, (matched.filter (fun r => decide (r.category = c))).length))

/-- Response shape of `GET /api/combined-data` (src/app.js lines
190-195); `transactions` holds the whole listing response object, since
line 184 stores the full JSON body of `/api/transactions`. -/
structure CombinedData where
  transactions : ListingResponse
  statistics : Statistics
  barChart : List (String × Nat)
  pieChart : List (String × Nat)
deriving DecidableEq

/-- `GET /api/combined-data` (src/app.js lines 179-199): issues the four
internal GET requests with only `month` in the query string, so
`/api/transactions` runs with no search text and its declared defaults
`page = 1`, `perPage = 10`. -/
def combinedDataHandler (month : Nat) (rs : List Transaction) : CombinedData :=
  { transactions := transactionsHandler (some month) none 1 10 rs,
    statistics := statisticsHandler month rs,
    barChart := barChartHandler month rs,
    pieChart := pieChartHandler month rs }

/-- Outcome of `await fetch(...)` then `await response.json()`
(src/app.js lines 30-31): either the parsed record list, or a rejection
of the network request, or a rejection while parsing the body. -/
inductive FetchOutcome where
  | success (data : List Transaction)
  | networkError
  | parseError
deriving DecidableEq

/-- An HTTP reply of the initialize endpoint. -/
structure InitResult where
  status : Nat
  body : String
deriving DecidableEq

/-- `GET /api/initialize` (src/app.js lines 28-40): inside `try`, first
the fetch and the body parse are awaited, and only then is
`deleteMany({})` followed by `insertMany(data)` executed; any rejection
jumps to `catch`, which answers 500 having touched nothing. The result is
the HTTP reply paired with the store contents after the request. -/
def initializeHandler (outcome : FetchOutcome) (store : List Transaction) :
    InitResult × List Transaction :=
  match outcome with
  | .success data => ({ status := 200, body := "Database initialized successfully" }, data)
  | .networkError => ({ status := 500, body := "Failed to initialize database" }, store)
  | .parseError => ({ status := 500, body := "Failed to initialize database" }, store)

/-- A concrete record with price exactly 101, sold in January 2022. -/
def rec101 : Transaction :=
  { id := 1, title := "Widget", price := 101, description := "plain",
    category := "misc", image := "http://example/img1", sold := true,
    dateOfSale := { year := 2022, month := 1, day := 15 } }

/-- Twelve January records (ids 0 to 11), price 10, all sold. -/
def janRecords : List Transaction :=
  (List.range 12).map (fun i =>
    { id := i, title := "Item", price := 10, description := "d",
      category := "c", image := "u", sold := true,
      dateOfSale := { year := 2022, month := 1, day := 1 } })

theorem sum_map_zero (l : List Nat) : (l.map (fun _ => (0 : Nat))).sum = 0 := by
  induction l with
  | nil => rfl
  | cons a t ih => simp [ih]

theorem sum_getD_range : ∀ (l : List Nat) (n : Nat), l.length ≤ n →
    ((List.range n).map (fun i => l.getD i 0)).sum = l.sum := by
  intro l
  induction l with
  | nil =>
    intro n _
    have h : ((List.range n).map (fun i => ([] : List Nat).getD i 0))
        = (List.range n).map (fun _ => (0 : Nat)) := rfl
    rw [h, sum_map_zero]
    rfl
  | cons a t ih =>
    intro n hn
    cases n with
    | zero => simp at hn
    | succ k =>
      rw [List.range_succ_eq_map, List.map_cons, List.map_map]
      have h : ((fun i => (a :: t).getD i 0) ∘ Nat.succ) = (fun i => t.getD i 0) := rfl
      have h0 : (a :: t).getD 0 0 = a := rfl
      rw [h, List.sum_cons, h0, ih k (by simp at hn; omega), List.sum_cons]

theorem sum_filter_ne_zero (l : List Nat) :
    (l.filter (fun c => decide (c ≠ 0))).sum = l.sum := by
  induction l with
  | nil => rfl
  | cons a t ih =>
    simp only [ne_eq, decide_not] at ih ⊢
    by_cases ha : a = 0
    · simp [List.filter_cons, ha, ih]
    · simp [List.filter_cons, ha, ih]

theorem list_sum_map_add (l : List Nat) (f g : Nat → Nat) :
    (l.map (fun i => f i + g i)).sum = (l.map f).sum + (l.map g).sum := by
  induction l with
  | nil => rfl
  | cons a t ih =>
    simp only [List.map_cons, List.sum_cons, ih]
    omega

theorem list_sum_indicator_ge (k : Nat) : ∀ n, n ≤ k →
    ((List.range n).map (fun i => if k = i then 1 else 0)).sum = 0 := by
  intro n
  induction n with
  | zero => intro _; rfl
  | succ m ih =>
    intro h
    rw [List.range_succ, List.map_append, List.sum_append]
    have hk : k ≠ m := by omega
    simp [hk, ih (by omega)]

theorem list_sum_indicator (k : Nat) : ∀ n, k < n →
    ((List.range n).map (fun i => if k = i then 1 else 0)).sum = 1 := by
  intro n
  induction n with
  | zero => intro h; omega
  | succ m ih =>
    intro h
    rw [List.range_succ, List.map_append, List.sum_append]
    by_cases hk : k = m
    · subst hk
      simp [list_sum_indicator_ge k k (le_refl k)]
    · simp [hk, ih (by omega)]

theorem length_eq_sum_filter_counts {α : Type} (g : α → Nat) (n : Nat) :
    ∀ l : List α, (∀ x ∈ l, g x < n) →
      ((List.range n).map (fun i => (l.filter (fun x => decide (g x = i))).length)).sum
        = l.length := by
  intro l
  induction l with
  | nil =>
    intro _
    have h : ((List.range n).map
          (fun i => (([] : List α).filter (fun x => decide (g x = i))).length))
        = (List.range n).map (fun _ => (0 : Nat)) := rfl
    rw [h, sum_map_zero]
    rfl
  | cons a t ih =>
    intro hall
    have hstep : ∀ i : Nat, ((a :: t).filter (fun x => decide (g x = i))).length
        = (t.filter (fun x => decide (g x = i))).length + (if g a = i then 1 else 0) := by
      intro i
      by_cases h : g a = i
      · simp [List.filter_cons, h]
      · simp [List.filter_cons, h]
    simp only [hstep]
    rw [list_sum_map_add (List.range n)
      (fun i => (t.filter (fun x => decide (g x = i))).length)
      (fun i => if g a = i then 1 else 0)]
    rw [list_sum_indicator (g a) n (hall a (by simp))]
    rw [ih (fun x hx => hall x (by simp [hx]))]
    simp

theorem bucketIdx_lt_ten (p : ℚ) : bucketIdx p < 10 := by
  unfold bucketIdx
  repeat' split
  all_goals omega

theorem barChartData_length_le (m : Nat) (rs : List Transaction) :
    (barChartData m rs).length ≤ 10 := by
  have h := List.length_filter_le (fun c => decide (c ≠ 0)) (bucketCounts m rs)
  have hlen : (bucketCounts m rs).length = 10 := by
    simp [bucketCounts]
  rw [hlen] at h
  exact h

theorem bar_chart_map_snd (m : Nat) (rs : List Transaction) :
    (barChartHandler m rs).map (fun p => p.2)
      = (List.range 10).map (fun i => (barChartData m rs).getD i 0) := rfl

/-- C1: the claim says each labelled entry of the bar-chart response
counts the month records in its own half-open price range, and in
particular a record with price exactly 101 is counted under the label
"101 - 200". The code does not do this: MongoDB `$bucket` omits empty
buckets, and lines 141-145 copy the returned counts into the labelled
rows by POSITION. For a January store holding one record of price 101,
the only aggregation document (bucket `[101, 201)`, count 1) lands in row
0, so the response reports count 1 under "0 - 100" and count 0 under
"101 - 200", even though the record belongs to bucket index 1. -/
theorem bar_chart_misassigns_boundary_price :
    bucketIdx rec101.price = 1 ∧
    barChartHandler 1 [rec101] =
      [("0 - 100", 1), ("101 - 200", 0), ("201 - 300", 0), ("301 - 400", 0),
       ("401 - 500", 0), ("501 - 600", 0), ("601 - 700", 0), ("701 - 800", 0),
       ("801 - 900", 0), ("901 - above", 0)] := by
  refine ⟨by decide, by decide⟩

/-- C4: the ten counts of the bar-chart response always sum to the number
of records whose `dateOfSale` month equals the requested month. Every
month record falls into exactly one `$bucket` output bucket (the default
bucket catches everything outside the nine bounded ranges), the positional
copy writes each returned count into a distinct row, and rows without a
returned count keep 0. -/
theorem bar_chart_counts_sum_to_month_total (m : Nat) (rs : List Transaction) :
    ((barChartHandler m rs).map (fun p => p.2)).sum
      = (rs.filter (fun r => decide (r.dateOfSale.month = m))).length := by
  rw [bar_chart_map_snd, sum_getD_range (barChartData m rs) 10 (barChartData_length_le m rs)]
  show ((bucketCounts m rs).filter (fun c => decide (c ≠ 0))).sum = _
  rw [sum_filter_ne_zero]
  show ((List.range 10).map (fun i =>
      ((rs.filter (fun r => decide (r.dateOfSale.month = m))).filter
        (fun r => decide (bucketIdx r.price = i))).length)).sum
    = (rs.filter (fun r => decide (r.dateOfSale.month = m))).length
  generalize (rs.filter (fun r => decide (r.dateOfSale.month = m))) = l
  have h := length_eq_sum_filter_counts (fun r : Transaction => bucketIdx r.price) 10 l
    (fun x _ => bucketIdx_lt_ten x.price)
  exact h

theorem sum_ite_price (l : List Transaction) :
    (l.map (fun r => if r.sold = true then r.price else 0)).sum
      = ((l.filter (fun r => r.sold)).map (fun r => r.price)).sum := by
  induction l with
  | nil => rfl
  | cons a t ih =>
    by_cases h : a.sold = true
    · simp [List.filter_cons, h, ih]
    · simp [List.filter_cons, h, ih]

theorem sum_ite_count_true (l : List Transaction) :
    (l.map (fun r => if r.sold = true then 1 else 0)).sum
      = (l.filter (fun r => r.sold)).length := by
  induction l with
  | nil => rfl
  | cons a t ih =>
    cases ha : a.sold <;> simp [List.filter_cons, ha, ih] <;> omega

theorem sum_ite_count_false (l : List Transaction) :
    (l.map (fun r => if r.sold = false then 1 else 0)).sum
      = (l.filter (fun r => !r.sold)).length := by
  induction l with
  | nil => rfl
  | cons a t ih =>
    cases ha : a.sold <;> simp [List.filter_cons, ha, ih] <;> omega

theorem statisticsHandler_fields (m : Nat) (rs : List Transaction) :
    (statisticsHandler m rs).totalSaleAmount
      = (((rs.filter (fun r => decide (r.dateOfSale.month = m))).filter
          (fun r => r.sold)).map (fun r => r.price)).sum ∧
    (statisticsHandler m rs).totalSoldItems
      = ((rs.filter (fun r => decide (r.dateOfSale.month = m))).filter
          (fun r => r.sold)).length ∧
    (statisticsHandler m rs).totalNotSoldItems
      = ((rs.filter (fun r => decide (r.dateOfSale.month = m))).filter
          (fun r => !r.sold)).length := by
  by_cases hm : (rs.filter (fun r => decide (r.dateOfSale.month = m))).isEmpty
  · have hnil : rs.filter (fun r => decide (r.dateOfSale.month = m)) = [] :=
      List.isEmpty_iff.mp hm
    refine ⟨?_, ?_, ?_⟩ <;> simp [statisticsHandler, statisticsAggregate, hnil]
  · have hagg : statisticsHandler m rs =
        { totalSaleAmount := ((rs.filter (fun r => decide (r.dateOfSale.month = m))).map
            (fun r => if r.sold = true then r.price else 0)).sum,
          totalSoldItems := ((rs.filter (fun r => decide (r.dateOfSale.month = m))).map
            (fun r => if r.sold = true then 1 else 0)).sum,
          totalNotSoldItems := ((rs.filter (fun r => decide (r.dateOfSale.month = m))).map
            (fun r => if r.sold = false then 1 else 0)).sum } := by
      simp [statisticsHandler, statisticsAggregate, hm]
    rw [hagg]
    exact ⟨sum_ite_price _, sum_ite_count_true _, sum_ite_count_false _⟩

/-- C5: the statistics response sums price over the sold month records,
counts the sold month records, counts the unsold month records — search
text does not reach this endpoint at all (the handler reads only `month`)
— and a month that matches nothing produces the explicit all-zero object
rather than an absent or error value. -/
theorem statistics_fields_correct (m : Nat) (rs : List Transaction) :
    (statisticsHandler m rs).totalSaleAmount
      = (((rs.filter (fun r => decide (r.dateOfSale.month = m))).filter
          (fun r => r.sold)).map (fun r => r.price)).sum ∧
    (statisticsHandler m rs).totalSoldItems
      = ((rs.filter (fun r => decide (r.dateOfSale.month = m))).filter
          (fun r => r.sold)).length ∧
    (statisticsHandler m rs).totalNotSoldItems
      = ((rs.filter (fun r => decide (r.dateOfSale.month = m))).filter
          (fun r => !r.sold)).length ∧
    (rs.filter (fun r => decide (r.dateOfSale.month = m)) = [] →
      statisticsHandler m rs
        = { totalSaleAmount := 0, totalSoldItems := 0, totalNotSoldItems := 0 }) := by
  obtain ⟨h1, h2, h3⟩ := statisticsHandler_fields m rs
  refine ⟨h1, h2, h3, fun hnil => ?_⟩
  simp [statisticsHandler, statisticsAggregate, hnil]

theorem length_filter_partition {α : Type} (p : α → Bool) :
    ∀ l : List α,
      (l.filter (fun x => p x)).length + (l.filter (fun x => !p x)).length = l.length := by
  intro l
  induction l with
  | nil => rfl
  | cons a t ih =>
    by_cases h : p a = true
    · simp only [List.filter_cons, h]
      simp only [Bool.not_true, if_true, if_false, cond_true]
      simp [List.length_cons]
      omega
    · simp only [List.filter_cons, h]
      have h2 : (!p a) = true := by simp [Bool.not_eq_true] at h; simp [h]
      simp [h2, List.length_cons]
      omega

/-- C6: `totalSoldItems + totalNotSoldItems` from the statistics response
equals the total number of records whose `dateOfSale` month equals the
requested month: the two `$cond` counters partition the month matches by
the boolean `sold` field. -/
theorem statistics_sold_partition (m : Nat) (rs : List Transaction) :
    (statisticsHandler m rs).totalSoldItems + (statisticsHandler m rs).totalNotSoldItems
      = (rs.filter (fun r => decide (r.dateOfSale.month = m))).length := by
  obtain ⟨_, h2, h3⟩ := statisticsHandler_fields m rs
  rw [h2, h3]
  exact length_filter_partition (fun r => r.sold)
    (rs.filter (fun r => decide (r.dateOfSale.month = m)))

theorem filter_ext {α : Type} (p q : α → Bool) :
    ∀ l : List α, (∀ x ∈ l, p x = q x) → l.filter p = l.filter q := by
  intro l
  induction l with
  | nil => intro _; rfl
  | cons a t ih =>
    intro h
    have ha := h a (by simp)
    rw [List.filter_cons, List.filter_cons, ha, ih (fun x hx => h x (by simp [hx]))]

theorem evalQuery_month_only (m : Nat) (r : Transaction) :
    evalQuery (buildQuery (some m) none) r = decide (r.dateOfSale.month = m) := by
  simp [evalQuery, buildQuery, evalCond, List.all_cons, List.all_nil]

/-- C2 counterexample: with twelve January records stored, the
transactions component of `/api/combined-data?month=1` carries only ten
records, while the full month-1 listing has twelve — so it is NOT the
full unpaginated listing. The internal fetch omits `page` and `perPage`,
and the listing endpoint then applies its defaults `page = 1`,
`perPage = 10`. -/
theorem combined_transactions_not_full_listing :
    ((combinedDataHandler 1 janRecords).transactions.transactions).length = 10 ∧
    (janRecords.filter (fun r => decide (r.dateOfSale.month = 1))).length = 12 ∧
    (combinedDataHandler 1 janRecords).transactions.transactions
      ≠ janRecords.filter (fun r => decide (r.dateOfSale.month = 1)) := by
  refine ⟨by decide, by decide, by decide⟩

/-- C2 amended: the transactions component of the combined-data response
is the month-only, empty-search listing response with the DEFAULT
pagination `page = 1`, `perPage = 10`: its record list is the first (at
most) ten month records in storage order, while its `total` still counts
every month record. -/
theorem combined_transactions_default_first_page (m : Nat) (rs : List Transaction) :
    (combinedDataHandler m rs).transactions.transactions
      = (rs.filter (fun r => decide (r.dateOfSale.month = m))).take 10 ∧
    (combinedDataHandler m rs).transactions.total
      = (rs.filter (fun r => decide (r.dateOfSale.month = m))).length ∧
    (combinedDataHandler m rs).transactions.page = 1 ∧
    (combinedDataHandler m rs).transactions.perPage = 10 := by
  have hq := filter_ext (fun r => evalQuery (buildQuery (some m) none) r)
    (fun r => decide (r.dateOfSale.month = m)) rs (fun x _ => evalQuery_month_only m x)
  refine ⟨?_, ?_, rfl, rfl⟩
  · show ((rs.filter (fun r => evalQuery (buildQuery (some m) none) r)).drop
        ((1 - 1) * 10)).take 10 = _
    rw [hq]
    simp
  · show (rs.filter (fun r => evalQuery (buildQuery (some m) none) r)).length = _
    rw [hq]

/-- C7: the `total` field of the listing response is the count of the
records matching the query — the same query, unsliced — and so does not
depend on the `page` and `perPage` used for slicing. -/
theorem listing_total_independent_of_pagination (mo : Option Nat) (se : Option SearchParam)
    (page perPage : Nat) (rs : List Transaction) :
    (transactionsHandler mo se page perPage rs).total
      = (rs.filter (fun r => evalQuery (buildQuery mo se) r)).length ∧
    ∀ page2 perPage2 : Nat,
      (transactionsHandler mo se page perPage rs).total
        = (transactionsHandler mo se page2 perPage2 rs).total :=
  ⟨rfl, fun _ _ => rfl⟩

/-- C3: a record is matched by the listing query exactly when (if a month
was provided) its `dateOfSale` month equals it, and (if search text was
provided) its title or its description contains the text
case-insensitively, or its price equals `parseFloat(search) || 0`; and a
non-numeric search text (`parseFloat` gives `NaN`) falls back to 0, so
its price branch matches only records with price exactly 0. -/
theorem listing_filter_predicate (mo : Option Nat) (se : Option SearchParam) (r : Transaction) :
    (evalQuery (buildQuery mo se) r = true ↔
      ((∀ m, mo = some m → r.dateOfSale.month = m) ∧
       (∀ s, se = some s →
         (ciContains r.title s.text = true ∨ ciContains r.description s.text = true ∨
          r.price = parseFloatOr0 s.num)))) ∧
    parseFloatOr0 none = 0 := by
  refine ⟨?_, rfl⟩
  cases mo <;> cases se <;>
    simp [evalQuery, buildQuery, evalCond, fieldVal, List.all_cons, List.all_nil, or_assoc]

theorem le_ceil_mul (t p : Nat) (hp : 1 ≤ p) : t ≤ ((t + p - 1) / p) * p := by
  have h1 := Nat.div_add_mod (t + p - 1) p
  have h2 : (t + p - 1) % p < p := Nat.mod_lt _ (by omega)
  have h3 : p * ((t + p - 1) / p) = ((t + p - 1) / p) * p := Nat.mul_comm _ _
  rw [h3] at h1
  generalize hq : ((t + p - 1) / p) * p = Q at h1 ⊢
  generalize hr : (t + p - 1) % p = R at h1 h2
  omega

theorem ceil_le_of_le_mul (t p k : Nat) (hp : 1 ≤ p) (h : t ≤ k * p) :
    (t + p - 1) / p ≤ k := by
  have h1 : t + p - 1 < (k + 1) * p := by
    rw [add_one_mul]
    generalize k * p = K at h ⊢
    omega
  have h2 : (t + p - 1) / p < k + 1 := by
    rw [Nat.div_lt_iff_lt_mul (by omega : 0 < p)]
    exact h1
  omega

/-- C8: for `page ≥ 1` and `perPage ≥ 1`, the listing returns the matches
in storage order sliced with `skip = (page - 1) * perPage` and at most
`perPage` entries; `totalPages` is the ceiling of `total / perPage` (the
exact formula, together with the two inequalities characterising the
ceiling: `total` fits into `totalPages` pages, and into no fewer); and a
`page` beyond `totalPages` yields an empty slice rather than an error. -/
theorem listing_pagination_slice (mo : Option Nat) (se : Option SearchParam)
    (page perPage : Nat) (rs : List Transaction)
    (hp : 1 ≤ page) (hpp : 1 ≤ perPage) :
    (transactionsHandler mo se page perPage rs).transactions
      = ((rs.filter (fun r => evalQuery (buildQuery mo se) r)).drop
          ((page - 1) * perPage)).take perPage ∧
    (transactionsHandler mo se page perPage rs).transactions.length ≤ perPage ∧
    (transactionsHandler mo se page perPage rs).totalPages
      = ((transactionsHandler mo se page perPage rs).total + perPage - 1) / perPage ∧
    (transactionsHandler mo se page perPage rs).total
      ≤ (transactionsHandler mo se page perPage rs).totalPages * perPage ∧
    (∀ k : Nat, (transactionsHandler mo se page perPage rs).total ≤ k * perPage →
      (transactionsHandler mo se page perPage rs).totalPages ≤ k) ∧
    ((transactionsHandler mo se page perPage rs).totalPages < page →
      (transactionsHandler mo se page perPage rs).transactions = []) := by
  refine ⟨rfl, ?_, rfl, ?_, ?_, ?_⟩
  · show (((rs.filter (fun r => evalQuery (buildQuery mo se) r)).drop
        ((page - 1) * perPage)).take perPage).length ≤ perPage
    rw [List.length_take]
    exact min_le_left _ _
  · exact le_ceil_mul _ _ hpp
  · exact fun k hk => ceil_le_of_le_mul _ _ k hpp hk
  · intro hlt
    have ha := le_ceil_mul (rs.filter (fun r => evalQuery (buildQuery mo se) r)).length
      perPage hpp
    have hb : ((rs.filter (fun r => evalQuery (buildQuery mo se) r)).length + perPage - 1)
        / perPage ≤ page - 1 := by
      have hlt2 : ((rs.filter (fun r => evalQuery (buildQuery mo se) r)).length + perPage - 1)
          / perPage < page := hlt
      omega
    have hc : (rs.filter (fun r => evalQuery (buildQuery mo se) r)).length
        ≤ (page - 1) * perPage :=
      le_trans ha (Nat.mul_le_mul_right perPage hb)
    show (((rs.filter (fun r => evalQuery (buildQuery mo se) r)).drop
        ((page - 1) * perPage)).take perPage) = []
    rw [List.drop_eq_nil_of_le hc, List.take_nil]

/-- Witness for the pagination theorem at the spec scenario: twelve
month-1 matches, `page = 5`, `perPage = 10` — `totalPages` is 2 and the
returned slice is empty. -/
theorem listing_pagination_slice_witness :
    1 ≤ 5 ∧ 1 ≤ 10 ∧
    ((transactionsHandler (some 1) none 5 10 janRecords).transactions
      = ((janRecords.filter (fun r => evalQuery (buildQuery (some 1) none) r)).drop
          ((5 - 1) * 10)).take 10 ∧
    (transactionsHandler (some 1) none 5 10 janRecords).transactions.length ≤ 10 ∧
    (transactionsHandler (some 1) none 5 10 janRecords).totalPages
      = ((transactionsHandler (some 1) none 5 10 janRecords).total + 10 - 1) / 10 ∧
    (transactionsHandler (some 1) none 5 10 janRecords).total
      ≤ (transactionsHandler (some 1) none 5 10 janRecords).totalPages * 10 ∧
    (∀ k : Nat, (transactionsHandler (some 1) none 5 10 janRecords).total ≤ k * 10 →
      (transactionsHandler (some 1) none 5 10 janRecords).totalPages ≤ k) ∧
    ((transactionsHandler (some 1) none 5 10 janRecords).totalPages < 5 →
      (transactionsHandler (some 1) none 5 10 janRecords).transactions = [])) :=
  ⟨by decide, by decide,
    listing_pagination_slice (some 1) none 5 10 janRecords (by decide) (by decide)⟩

theorem map_self_id {α : Type} : ∀ l : List α, l.map (fun a => a) = l := by
  intro l
  induction l with
  | nil => rfl
  | cons a t ih => simp [ih]

theorem mem_map_pair_iff (l : List String) (f : String → Nat) (c : String) (n : Nat) :
    (c, n) ∈ l.dedup.map (fun x => (x, f x)) ↔ (c ∈ l ∧ n = f c) := by
  rw [List.mem_map]
  constructor
  · rintro ⟨x, hx, heq⟩
    have h1 : x = c := congrArg Prod.fst heq
    have h2 : f x = n := congrArg Prod.snd heq
    subst h1
    exact ⟨List.mem_dedup.mp hx, h2.symm⟩
  · rintro ⟨hc, hn⟩
    exact ⟨c, List.mem_dedup.mpr hc, by rw [hn]⟩

/-- C9: the pie-chart response holds exactly one `{_id, count}` pair for
each distinct category string (compared exactly) occurring among the
month records — the key list has no duplicates — and each count is the
number of month records carrying that category; categories with no month
record never appear. -/
theorem pie_chart_category_groups (m : Nat) (rs : List Transaction) :
    (∀ c n, (c, n) ∈ pieChartHandler m rs ↔
      ((∃ r ∈ rs.filter (fun r => decide (r.dateOfSale.month = m)), r.category = c) ∧
       n = ((rs.filter (fun r => decide (r.dateOfSale.month = m))).filter
              (fun r => decide (r.category = c))).length)) ∧
    ((pieChartHandler m rs).map (fun p => p.1)).Nodup := by
  constructor
  · intro c n
    have h := mem_map_pair_iff
      ((rs.filter (fun r => decide (r.dateOfSale.month = m))).map (fun r => r.category))
      (fun c => ((rs.filter (fun r => decide (r.dateOfSale.month = m))).filter
        (fun r => decide (r.category = c))).length) c n
    constructor
    · intro hmem
      obtain ⟨hc, hn⟩ := h.mp hmem
      exact ⟨List.mem_map.mp hc, hn⟩
    · rintro ⟨hex, hn⟩
      exact h.mpr ⟨List.mem_map.mpr hex, hn⟩
  · have h : (pieChartHandler m rs).map (fun p => p.1)
        = ((rs.filter (fun r => decide (r.dateOfSale.month = m))).map
            (fun r => r.category)).dedup := by
      show (((rs.filter (fun r => decide (r.dateOfSale.month = m))).map
          (fun r => r.category)).dedup.map
            (fun c => (c, ((rs.filter (fun r => decide (r.dateOfSale.month = m))).filter
              (fun r => decide (r.category = c))).length))).map (fun p => p.1) = _
      rw [List.map_map]
      exact map_self_id _
    rw [h]
    exact List.nodup_dedup _

/-- C10: when the fetch of the external JSON source or the parsing of its
body fails, the initialize endpoint answers HTTP 500 with its static
error message and the stored record set is exactly what it was — the
delete-then-insert replacement runs only after both awaits have
succeeded. On success the store is fully replaced by the fetched data. -/
theorem initialize_failure_leaves_store (store : List Transaction) :
    initializeHandler .networkError store
      = ({ status := 500, body := "Failed to initialize database" }, store) ∧
    initializeHandler .parseError store
      = ({ status := 500, body := "Failed to initialize database" }, store) ∧
    ∀ data : List Transaction,
      initializeHandler (.success data) store
        = ({ status := 200, body := "Database initialized successfully" }, data) :=
  ⟨rfl, rfl, fun _ => rfl⟩

/-- Witness for the statistics theorem at a concrete store: one January
record with price 101, sold. -/
theorem statistics_fields_correct_witness :
    (statisticsHandler 1 [rec101]).totalSaleAmount
      = ((([rec101].filter (fun r => decide (r.dateOfSale.month = 1))).filter
          (fun r => r.sold)).map (fun r => r.price)).sum ∧
    (statisticsHandler 1 [rec101]).totalSoldItems
      = (([rec101].filter (fun r => decide (r.dateOfSale.month = 1))).filter
          (fun r => r.sold)).length ∧
    (statisticsHandler 1 [rec101]).totalNotSoldItems
      = (([rec101].filter (fun r => decide (r.dateOfSale.month = 1))).filter
          (fun r => !r.sold)).length ∧
    ([rec101].filter (fun r => decide (r.dateOfSale.month = 1)) = [] →
      statisticsHandler 1 [rec101]
        = { totalSaleAmount := 0, totalSoldItems := 0, totalNotSoldItems := 0 }) :=
  statistics_fields_correct 1 [rec101]
